import Mathlib

/-!
Shallow embedding of the wedding-site backend (src/app.py).

The database is modelled as lists of rows (one list per table), the
in-process session map ADMIN_SESSIONS as an association list from token
strings to admin ids, and every HTTP handler as a pure function from the
request data and the current state to a response value and the next state.
SQL NULL is modelled with Option, and SQL equality against a possibly-NULL
operand with helper functions that are false when either side is NULL.
-/

/-- Embedding of Python `s.replace(pat, '')` on lists of characters:
delete every non-overlapping occurrence of `pat`, scanning left to right.
A fuel argument (initialised with the length of the scanned list) keeps the
recursion structural so that the function evaluates by `decide`. -/
def stripAllF : Nat → List Char → List Char → List Char
  | 0, _, l => l
  | _ + 1, _, [] => []
  | fuel + 1, pat, c :: rest =>
    if pat.isPrefixOf (c :: rest) && !pat.isEmpty then
      stripAllF fuel pat (rest.drop (pat.length - 1))
    else c :: stripAllF fuel pat rest

/-- Delete every occurrence of `pat` from `l` (Python `replace(pat, '')`). -/
def stripAll (pat l : List Char) : List Char := stripAllF l.length pat l

/-- Embedding of `token.replace('Bearer ', '')` from check_auth. -/
def stripBearer (s : String) : String := String.mk (stripAll (("Bearer ").data) s.data)

/-- Insertion step of a stable sort, used to model SQL ORDER BY. -/
def insertSorted (le : α → α → Bool) (a : α) : List α → List α
  | [] => [a]
  | b :: bs => if le a b then a :: b :: bs else b :: insertSorted le a bs

/-- Stable insertion sort modelling SQL ORDER BY with comparison `le`. -/
def sortBy (le : α → α → Bool) : List α → List α
  | [] => []
  | a :: as => insertSorted le a (sortBy le as)

/-- Python truthiness of an optional string: absent and empty are falsy. -/
def truthyStr : Option String → Bool
  | none => false
  | some s => !(s == "")

/-- Python truthiness of an optional number: absent and zero are falsy. -/
def truthyRat : Option Rat → Bool
  | none => false
  | some v => !(v == 0)

/-- SQL equality between two possibly-NULL integer operands. -/
def sqlEqN : Option Nat → Option Nat → Bool
  | some a, some b => a == b
  | _, _ => false

/-- SQL equality between two possibly-NULL string operands. -/
def sqlEqS : Option String → Option String → Bool
  | some a, some b => a == b
  | _, _ => false

/-- Row of table laisvitor_admin. -/
structure AdminRow where
  id : Nat
  username : String
  chave_admin : String
deriving DecidableEq

/-- Row of table laisvitor_convidados. -/
structure Convidado where
  id : Nat
  admin_id : Option Nat
  codigo_convite : String
  nome_convidado : String
  status_rsvp : Option String
  qtd_adultos : Option Int
  restricoes_alimentares : Option String
  data_confirmacao : Option Nat
deriving DecidableEq

/-- Row of table laisvitor_presentes. -/
structure Presente where
  id : Nat
  admin_id : Option Nat
  nome_presente : String
  descricao : Option String
  imagem_url : Option String
  valor_cota : Rat
  esta_ativo : Bool
deriving DecidableEq

/-- Row of table laisvitor_depoimentos. -/
structure Depoimento where
  id : Nat
  convidado_id : Option Nat
  mensagem : String
  status_aprovacao : Option String
  data_criacao : Nat
deriving DecidableEq

/-- The whole database: one list of rows per table. -/
structure Db where
  admins : List AdminRow
  convidados : List Convidado
  presentes : List Presente
  depoimentos : List Depoimento
deriving DecidableEq

/-- The in-process ADMIN_SESSIONS map, newest binding first. -/
abbrev Sessions := List (String × Nat)

/-- Dictionary lookup ADMIN_SESSIONS.get(token). -/
def sessionsGet (s : Sessions) (tok : String) : Option Nat :=
  match s.find? (fun p => p.1 == tok) with
  | some p => some p.2
  | none => none

/-- Embedding of check_auth: reject a missing or empty Authorization
header, strip the Bearer prefix, then look the token up in the session
map, yielding the admin id or none. -/
def check_auth (sessions : Sessions) (authHeader : Option String) : Option Nat :=
  match authHeader with
  | none => none
  | some t => if t == "" then none else sessionsGet sessions (stripBearer t)

/-- Embedding of the admin-id recomputation done inside the protected
handlers: ADMIN_SESSIONS.get(headers.get('Authorization','').replace(...)). -/
def adminIdFromHeader (sessions : Sessions) (authHeader : Option String) : Option Nat :=
  sessionsGet sessions (stripBearer (authHeader.getD ("")))

/-- Next SERIAL value for a table whose rows carry the listed ids. -/
def nextId (ids : List Nat) : Nat := ids.foldr max 0 + 1

/-- SELECT ... FROM laisvitor_convidados WHERE codigo_convite = %s, with a
possibly-absent parameter (comparison with NULL selects no row). -/
def findConvidado (db : Db) (codigo : Option String) : Option Convidado :=
  match codigo with
  | none => none
  | some c => db.convidados.find? (fun r => r.codigo_convite == c)

/-- Response of POST /api/login_admin. -/
inductive LoginResp
  | ok (token : String) (admin_id : Nat)
  | badRequest
  | unauthorized
deriving DecidableEq

/-- HTTP status code of a login response. -/
def LoginResp.code : LoginResp → Nat
  | .ok _ _ => 200
  | .badRequest => 400
  | .unauthorized => 401

/-- Embedding of login_admin: 400 on falsy username or key, else look up
the admin row by username and key; on a match mint the given token,
record it in the session map and return it; otherwise 401. -/
def login_admin (db : Db) (sessions : Sessions) (username chave : Option String)
    (tok : String) : LoginResp × Sessions :=
  if truthyStr username && truthyStr chave then
    match db.admins.find? (fun a =>
        sqlEqS (some a.username) username && sqlEqS (some a.chave_admin) chave) with
    | some a => (.ok tok a.id, (tok, a.id) :: sessions)
    | none => (.unauthorized, sessions)
  else (.badRequest, sessions)

/-- Response of POST /api/rsvp/verificar. -/
inductive VerifyResp
  | ok (id : Nat) (nome : String) (status : Option String)
  | notFound
deriving DecidableEq

/-- HTTP status code of a verify response. -/
def VerifyResp.code : VerifyResp → Nat
  | .ok _ _ _ => 200
  | .notFound => 404

/-- Embedding of rsvp_verificar. -/
def rsvp_verificar (db : Db) (codigo : Option String) : VerifyResp :=
  match findConvidado db codigo with
  | some c => .ok c.id c.nome_convidado c.status_rsvp
  | none => .notFound

/-- Response of POST /api/rsvp/confirmar. -/
inductive ConfirmResp
  | ok
  | notFound
deriving DecidableEq

/-- HTTP status code of a confirm response. -/
def ConfirmResp.code : ConfirmResp → Nat
  | .ok => 200
  | .notFound => 404

/-- Effect of the rsvp_confirmar UPDATE on one guest row. -/
def confirmRow (status : Option String) (qtd : Int) (restr : String) (now : Nat)
    (codigo : String) (c : Convidado) : Convidado :=
  if c.codigo_convite == codigo then
    { c with status_rsvp := status, qtd_adultos := some qtd,
             restricoes_alimentares := some restr, data_confirmacao := some now }
  else c

/-- Embedding of rsvp_confirmar: update every guest row matching the code
(the code column is unique, so at most one), storing the given status
string as-is; 404 when no row matches. -/
def rsvp_confirmar (db : Db) (codigo status : Option String) (qtd : Option Int)
    (restr : Option String) (now : Nat) : ConfirmResp × Db :=
  match codigo with
  | none => (.notFound, db)
  | some cod =>
    if db.convidados.any (fun c => c.codigo_convite == cod) then
      (.ok, { db with convidados :=
        db.convidados.map (confirmRow status (qtd.getD 0) (restr.getD ("")) now cod) })
    else (.notFound, db)

/-- One public testimonial as serialised by GET /api/depoimentos. -/
structure DepPub where
  texto : String
  nome : String
  data : Nat
deriving DecidableEq

/-- The JOIN of depoimentos with convidados on d.convidado_id = c.id. -/
def joinDepoimentos (db : Db) : List (Depoimento × Convidado) :=
  db.depoimentos.flatMap (fun d =>
    (db.convidados.filter (fun c => d.convidado_id == some c.id)).map (fun c => (d, c)))

/-- The WHERE d.status_aprovacao = 'Aprovado' restriction of the join. -/
def depoimentosAprovados (db : Db) : List (Depoimento × Convidado) :=
  (joinDepoimentos db).filter (fun p => p.1.status_aprovacao == some ("Aprovado"))

/-- Embedding of get_depoimentos_publico: approved testimonials joined
with the guest name, newest first. -/
def get_depoimentos_publico (db : Db) : List DepPub :=
  (sortBy (fun a b => decide (b.1.data_criacao ≤ a.1.data_criacao))
      (depoimentosAprovados db)).map
    (fun p => { texto := p.1.mensagem, nome := p.2.nome_convidado, data := p.1.data_criacao })

/-- Response of POST /api/depoimentos. -/
inductive DepPostResp
  | ok
  | notFound
  | serverError
deriving DecidableEq

/-- HTTP status code of a testimonial-submit response. -/
def DepPostResp.code : DepPostResp → Nat
  | .ok => 200
  | .notFound => 404
  | .serverError => 500

/-- Embedding of post_depoimento_publico: resolve the guest id from the
code (404 when absent), then insert a testimonial with status Pendente.
A NULL message violates the NOT NULL column and surfaces as a 500. -/
def post_depoimento_publico (db : Db) (codigo mensagem : Option String)
    (now : Nat) : DepPostResp × Db :=
  match findConvidado db codigo with
  | none => (.notFound, db)
  | some c =>
    match mensagem with
    | none => (.serverError, db)
    | some m =>
      (.ok, { db with depoimentos := db.depoimentos ++
        [{ id := nextId (db.depoimentos.map (fun d => d.id)), convidado_id := some c.id,
           mensagem := m, status_aprovacao := some ("Pendente"), data_criacao := now }] })

/-- Embedding of get_presentes_publico: active gifts, ordered by id. -/
def get_presentes_publico (db : Db) : List Presente :=
  sortBy (fun a b => decide (a.id ≤ b.id)) (db.presentes.filter (fun p => p.esta_ativo))

/-- Response of GET /api/admin/dashboard_stats. -/
inductive StatsResp
  | ok (confirmados pendentes_rsvp recados_moderacao : Nat)
  | forbidden
deriving DecidableEq

/-- HTTP status code of a stats response. -/
def StatsResp.code : StatsResp → Nat
  | .ok _ _ _ => 200
  | .forbidden => 403

/-- Embedding of admin_stats: three global counts, none filtered by the
session's admin id. -/
def admin_stats (db : Db) (sessions : Sessions) (auth : Option String) : StatsResp :=
  match check_auth sessions auth with
  | none => .forbidden
  | some _ =>
    .ok (db.convidados.countP (fun c => c.status_rsvp == some ("Confirmado")))
        (db.convidados.countP (fun c => c.status_rsvp == some ("Pendente")))
        (db.depoimentos.countP (fun d => d.status_aprovacao == some ("Pendente")))

/-- Response of GET /api/presentes/:id. -/
inductive PresenteResp
  | ok (p : Presente)
  | notFound
  | forbidden
deriving DecidableEq

/-- HTTP status code of a single-gift response. -/
def PresenteResp.code : PresenteResp → Nat
  | .ok _ => 200
  | .notFound => 404
  | .forbidden => 403

/-- Embedding of get_presente_by_id: lookup by id only, no admin scoping. -/
def get_presente_by_id (db : Db) (sessions : Sessions) (auth : Option String)
    (id : Nat) : PresenteResp :=
  match check_auth sessions auth with
  | none => .forbidden
  | some _ =>
    match db.presentes.find? (fun p => p.id == id) with
    | some p => .ok p
    | none => .notFound

/-- Fields of a guest row as serialised by GET /api/convidados/:id. -/
structure ConvidadoOut where
  id : Nat
  nome_convidado : String
  codigo_convite : String
  status_rsvp : Option String
  qtd_adultos : Option Int
  restricoes_alimentares : Option String
deriving DecidableEq

/-- Response of GET /api/convidados/:id. -/
inductive ConvidadoResp
  | ok (c : ConvidadoOut)
  | notFound
  | forbidden
deriving DecidableEq

/-- HTTP status code of a single-guest response. -/
def ConvidadoResp.code : ConvidadoResp → Nat
  | .ok _ => 200
  | .notFound => 404
  | .forbidden => 403

/-- Embedding of get_convidado_by_id: lookup by id only, no admin scoping. -/
def get_convidado_by_id (db : Db) (sessions : Sessions) (auth : Option String)
    (id : Nat) : ConvidadoResp :=
  match check_auth sessions auth with
  | none => .forbidden
  | some _ =>
    match db.convidados.find? (fun c => c.id == id) with
    | some c => .ok { id := c.id, nome_convidado := c.nome_convidado,
                      codigo_convite := c.codigo_convite, status_rsvp := c.status_rsvp,
                      qtd_adultos := c.qtd_adultos,
                      restricoes_alimentares := c.restricoes_alimentares }
    | none => .notFound

/-- Response of GET /api/admin/presentes. -/
inductive PresListResp
  | ok (l : List Presente)
  | forbidden
deriving DecidableEq

/-- HTTP status code of an admin gift-list response. -/
def PresListResp.code : PresListResp → Nat
  | .ok _ => 200
  | .forbidden => 403

/-- Embedding of the GET branch of admin_gerenciar_presentes: every gift
whose admin_id equals the session's admin id, ordered by id. -/
def admin_list_presentes (db : Db) (sessions : Sessions) (auth : Option String) : PresListResp :=
  match check_auth sessions auth with
  | none => .forbidden
  | some _ =>
    .ok (sortBy (fun a b => decide (a.id ≤ b.id))
      (db.presentes.filter (fun p => sqlEqN p.admin_id (adminIdFromHeader sessions auth))))

/-- Response of the POST branch of /api/admin/convidados. -/
inductive ConvCreateResp
  | created (id : Nat) (codigo : String)
  | badRequest
  | forbidden
  | serverError
deriving DecidableEq

/-- HTTP status code of a guest-creation response. -/
def ConvCreateResp.code : ConvCreateResp → Nat
  | .created _ _ => 200
  | .badRequest => 400
  | .forbidden => 403
  | .serverError => 500

/-- Embedding of Python `str(uuid.uuid4())[:6].upper()`: the first six
characters of the random identifier, uppercased. -/
def pyTake6Upper (s : String) : String := String.mk ((s.data.take 6).map Char.toUpper)

/-- Embedding of the POST branch of admin_gerenciar_convidados: 400 on a
falsy name, otherwise insert a guest carrying the session's admin id and
the generated 6-character code; a collision on the unique code column
raises, surfacing as a 500 with no insert. -/
def admin_create_convidado (db : Db) (sessions : Sessions) (auth : Option String)
    (nome : Option String) (randId : String) : ConvCreateResp × Db :=
  match check_auth sessions auth with
  | none => (.forbidden, db)
  | some _ =>
    let adminId := adminIdFromHeader sessions auth
    let codigo := pyTake6Upper randId
    if truthyStr nome then
      if db.convidados.any (fun c => c.codigo_convite == codigo) then (.serverError, db)
      else
        let newId := nextId (db.convidados.map (fun c => c.id))
        (.created newId codigo,
          { db with convidados := db.convidados ++
            [{ id := newId, admin_id := adminId, codigo_convite := codigo,
               nome_convidado := nome.getD (""), status_rsvp := some ("Pendente"),
               qtd_adultos := none, restricoes_alimentares := none,
               data_confirmacao := none }] })
    else (.badRequest, db)

/-- Response of PUT /api/admin/presentes/:id. -/
inductive UpdResp
  | ok
  | badRequest
  | forbidden
deriving DecidableEq

/-- HTTP status code of a gift-update response. -/
def UpdResp.code : UpdResp → Nat
  | .ok => 200
  | .badRequest => 400
  | .forbidden => 403

/-- Effect of the admin_update_presente UPDATE on one gift row. -/
def updPresenteRow (id : Nat) (nome : Option String) (valor : Option Rat)
    (url desc : Option String) (p : Presente) : Presente :=
  if p.id == id then
    { p with nome_presente := nome.getD (""), valor_cota := valor.getD 0,
             imagem_url := url, descricao := desc }
  else p

/-- Embedding of admin_update_presente: 400 on falsy name or value,
otherwise overwrite the four listed columns of every row with the given
id and report success whether or not such a row exists. -/
def admin_update_presente (db : Db) (sessions : Sessions) (auth : Option String)
    (id : Nat) (nome : Option String) (valor : Option Rat)
    (url desc : Option String) : UpdResp × Db :=
  match check_auth sessions auth with
  | none => (.forbidden, db)
  | some _ =>
    if truthyStr nome && truthyRat valor then
      (.ok, { db with presentes := db.presentes.map (updPresenteRow id nome valor url desc) })
    else (.badRequest, db)

/-! ### Helper lemmas -/

theorem isPrefixOf_append_self (p l : List Char) : p.isPrefixOf (p ++ l) = true := by
  induction p with
  | nil => simp [List.isPrefixOf]
  | cons a as ih => simp [List.isPrefixOf, ih]

theorem stripAllF_congr (pat : List Char) :
    ∀ f₁ f₂ l, l.length ≤ f₁ → l.length ≤ f₂ → stripAllF f₁ pat l = stripAllF f₂ pat l := by
  intro f₁
  induction f₁ with
  | zero =>
    intro f₂ l h1 _
    have hl : l = [] := List.eq_nil_of_length_eq_zero (Nat.le_zero.mp h1)
    subst hl
    cases f₂ <;> rfl
  | succ f ih =>
    intro f₂ l h1 h2
    cases l with
    | nil => cases f₂ <;> rfl
    | cons c rest =>
      cases f₂ with
      | zero => simp at h2
      | succ g =>
        simp only [stripAllF]
        by_cases hcond : (pat.isPrefixOf (c :: rest) && !pat.isEmpty) = true
        · rw [if_pos hcond, if_pos hcond]
          apply ih
          · have := List.length_drop (pat.length - 1) rest
            have h1a : rest.length ≤ f := by simpa using h1
            omega
          · have := List.length_drop (pat.length - 1) rest
            have h2a : rest.length ≤ g := by simpa using h2
            omega
        · rw [if_neg hcond, if_neg hcond]
          have h1a : rest.length ≤ f := by simpa using h1
          have h2a : rest.length ≤ g := by simpa using h2
          exact congrArg (List.cons c) (ih g rest h1a h2a)

theorem stripAll_append_self (pat l : List Char) (hp : pat ≠ []) :
    stripAll pat (pat ++ l) = stripAll pat l := by
  obtain ⟨p0, ps, rfl⟩ : ∃ p0 ps, pat = p0 :: ps := by
    cases pat with
    | nil => exact absurd rfl hp
    | cons a as => exact ⟨a, as, rfl⟩
  show stripAllF ((p0 :: ps ++ l).length) (p0 :: ps) (p0 :: (ps ++ l)) = stripAll (p0 :: ps) l
  have hlen : (p0 :: ps ++ l).length = (ps ++ l).length + 1 := by simp
  rw [hlen]
  simp only [stripAllF]
  rw [if_pos]
  · have hdrop : (ps ++ l).drop ((p0 :: ps).length - 1) = l := by
      have h : (p0 :: ps).length - 1 = ps.length := by simp
      rw [h]
      exact List.drop_left ps l
    rw [hdrop]
    exact stripAllF_congr (p0 :: ps) ((ps ++ l).length) l.length l (by simp) (le_refl _)
  · have h1 : (p0 :: ps).isPrefixOf ((p0 :: ps) ++ l) = true := isPrefixOf_append_self _ _
    simp only [List.cons_append] at h1
    simp [h1]

theorem data_append (s t : String) : (s ++ t).data = s.data ++ t.data := by
  cases s
  cases t
  rfl

theorem mk_data (s : String) : String.mk s.data = s := by
  cases s
  rfl

theorem bearer_append_ne_empty (t : String) : (("Bearer ") ++ t) ≠ "" := by
  intro h
  have h2 : (("Bearer ") ++ t).data = ("" : String).data := congrArg String.data h
  rw [data_append] at h2
  have h3 := congrArg List.length h2
  rw [List.length_append] at h3
  have h4 : (("Bearer " : String)).data.length = 7 := rfl
  have h5 : (("" : String)).data.length = 0 := rfl
  omega

theorem stripBearer_append (t : String) (h : stripBearer t = t) :
    stripBearer (("Bearer ") ++ t) = t := by
  have hd : stripAll (("Bearer ").data) t.data = t.data := by
    have := congrArg String.data h
    simpa [stripBearer] using this
  unfold stripBearer
  rw [data_append]
  rw [stripAll_append_self (("Bearer ").data) t.data (by decide)]
  rw [hd]

theorem mem_insertSorted (le : α → α → Bool) (a x : α) :
    ∀ l, (x ∈ insertSorted le a l) ↔ (x = a ∨ x ∈ l) := by
  intro l
  induction l with
  | nil => simp [insertSorted]
  | cons b bs ih =>
    simp only [insertSorted]
    by_cases h : le a b = true
    · rw [if_pos h]
      simp
    · rw [if_neg h]
      simp only [List.mem_cons, ih]
      tauto

theorem mem_sortBy (le : α → α → Bool) (x : α) :
    ∀ l, (x ∈ sortBy le l) ↔ x ∈ l := by
  intro l
  induction l with
  | nil => simp [sortBy]
  | cons a as ih =>
    simp only [sortBy, mem_insertSorted, ih, List.mem_cons]

theorem map_id_of (f : α → α) : ∀ l : List α, (∀ x, x ∈ l → f x = x) → l.map f = l := by
  intro l
  induction l with
  | nil => intro _; rfl
  | cons a as ih =>
    intro h
    simp only [List.map_cons]
    rw [h a (by simp), ih (fun x hx => h x (by simp [hx]))]

theorem adminIdFromHeader_of_check_auth (sessions : Sessions) (auth : Option String)
    (aid : Nat) (h : check_auth sessions auth = some aid) :
    adminIdFromHeader sessions auth = some aid := by
  cases auth with
  | none => simp [check_auth] at h
  | some t =>
    by_cases ht : (t == "") = true
    · simp [check_auth, ht] at h
    · simp only [check_auth, ht, if_neg, Bool.not_eq_true] at h
      simpa [adminIdFromHeader, Option.getD] using h

theorem mem_depoimentosAprovados (db : Db) (p : Depoimento × Convidado)
    (hp : p ∈ depoimentosAprovados db) : p.1.status_aprovacao = some ("Aprovado") := by
  unfold depoimentosAprovados at hp
  have := (List.mem_filter.mp hp).2
  simpa using this

theorem find_confirmRow (status : Option String) (qtd : Int) (restr : String)
    (now : Nat) (codigo : String) :
    ∀ l : List Convidado, (∃ c, c ∈ l ∧ c.codigo_convite = codigo) →
      ∃ c, (l.map (confirmRow status qtd restr now codigo)).find?
          (fun r => r.codigo_convite == codigo) = some c ∧
        c.codigo_convite = codigo ∧ c.status_rsvp = status ∧ c.qtd_adultos = some qtd ∧
        c.restricoes_alimentares = some restr ∧ c.data_confirmacao = some now := by
  intro l
  induction l with
  | nil =>
    rintro ⟨c, hc, _⟩
    exact absurd hc (List.not_mem_nil c)
  | cons a as ih =>
    rintro ⟨c, hc, hcod⟩
    by_cases ha : a.codigo_convite = codigo
    · have hfa : confirmRow status qtd restr now codigo a =
          { a with status_rsvp := status, qtd_adultos := some qtd,
                   restricoes_alimentares := some restr, data_confirmacao := some now } := by
        unfold confirmRow
        rw [if_pos (by simp [ha])]
      refine ⟨confirmRow status qtd restr now codigo a, ?_, by simp [hfa, ha],
        by simp [hfa], by simp [hfa], by simp [hfa], by simp [hfa]⟩
      rw [List.map_cons]
      exact List.find?_cons_of_pos _ (by simp [hfa, ha])
    · have hfa : confirmRow status qtd restr now codigo a = a := by
        unfold confirmRow
        rw [if_neg (by simp [ha])]
      have hcas : c ∈ as := by
        cases List.mem_cons.mp hc with
        | inl h => exact absurd (h ▸ hcod) ha
        | inr h => exact h
      obtain ⟨c2, hfind, hprops⟩ := ih ⟨c, hcas, hcod⟩
      refine ⟨c2, ?_, hprops⟩
      rw [List.map_cons]
      rw [List.find?_cons_of_neg _ (by simp [hfa, ha])]
      exact hfind

/-! ### Concrete witness data -/

/-- A sample guest row used by the witness theorems. -/
def convW : Convidado :=
  { id := 1, admin_id := some 1, codigo_convite := "ABC123", nome_convidado := "Ana",
    status_rsvp := some ("Pendente"), qtd_adultos := none,
    restricoes_alimentares := none, data_confirmacao := none }

/-- A sample database used by the witness theorems. -/
def dbW : Db :=
  { admins := [{ id := 1, username := "admin", chave_admin := "segredo" }],
    convidados := [convW], presentes := [], depoimentos := [] }

/-! ### Claim theorems -/

/-- Claim C1: a testimonial submitted through the public submit endpoint
is stored with approval status Pendente; the public list endpoint selects
only join rows whose approval status equals Aprovado (joined with the
guest name, newest first), so no element of its response derives from the
newly inserted testimonial until an admin changes its status. -/
theorem submitted_testimonial_pending_and_not_public
    (db : Db) (codigo msg : String) (now : Nat) (c : Convidado)
    (hc : findConvidado db (some codigo) = some c) :
    (post_depoimento_publico db (some codigo) (some msg) now).1 = DepPostResp.ok ∧
    ∃ d : Depoimento,
      ((post_depoimento_publico db (some codigo) (some msg) now).2).depoimentos
        = db.depoimentos ++ [d] ∧
      d.status_aprovacao = some ("Pendente") ∧ d.mensagem = msg ∧
      (∀ db2 : Db, ∀ p, p ∈ depoimentosAprovados db2 →
        p.1.status_aprovacao = some ("Aprovado")) ∧
      (∀ x, x ∈ get_depoimentos_publico ((post_depoimento_publico db (some codigo) (some msg) now).2) →
        ∃ p, p ∈ depoimentosAprovados ((post_depoimento_publico db (some codigo) (some msg) now).2) ∧
          x = { texto := p.1.mensagem, nome := p.2.nome_convidado, data := p.1.data_criacao } ∧
          p.1 ≠ d) := by
  have hpost : post_depoimento_publico db (some codigo) (some msg) now =
      (DepPostResp.ok, { db with depoimentos := db.depoimentos ++
        [{ id := nextId (db.depoimentos.map (fun d => d.id)), convidado_id := some c.id,
           mensagem := msg, status_aprovacao := some ("Pendente"), data_criacao := now }] }) := by
    unfold post_depoimento_publico
    rw [hc]
  rw [hpost]
  refine ⟨rfl, _, rfl, rfl, rfl, fun db2 p hp => mem_depoimentosAprovados db2 p hp, ?_⟩
  intro x hx
  unfold get_depoimentos_publico at hx
  obtain ⟨p, hps, hxeq⟩ := List.mem_map.mp hx
  have hpa := (mem_sortBy _ p _).mp hps
  refine ⟨p, hpa, hxeq.symm, ?_⟩
  intro hcontra
  have happ := mem_depoimentosAprovados _ p hpa
  rw [hcontra] at happ
  simp at happ

/-- Witness for C1 at a concrete database. -/
theorem submitted_testimonial_pending_and_not_public_witness :
    findConvidado dbW (some ("ABC123")) = some convW ∧
    (post_depoimento_publico dbW (some ("ABC123")) (some ("ola")) 5).1 = DepPostResp.ok :=
  ⟨by decide,
   (submitted_testimonial_pending_and_not_public dbW ("ABC123") ("ola") 5 convW (by decide)).1⟩

/-- Claim C2: for every status string and every invite code present in the
guest table, rsvp_confirmar stores that exact string as the guest's
status_rsvp, and rsvp_verificar on the same code then returns exactly that
stored status. -/
theorem confirm_stores_any_status_verify_returns_it
    (db : Db) (codigo status : String) (qtd : Option Int) (restr : Option String)
    (now : Nat) (c0 : Convidado) (h0 : c0 ∈ db.convidados)
    (hcod : c0.codigo_convite = codigo) :
    (rsvp_confirmar db (some codigo) (some status) qtd restr now).1 = ConfirmResp.ok ∧
    ∃ c, findConvidado (rsvp_confirmar db (some codigo) (some status) qtd restr now).2
        (some codigo) = some c ∧
      c.status_rsvp = some status ∧
      rsvp_verificar (rsvp_confirmar db (some codigo) (some status) qtd restr now).2
        (some codigo) = VerifyResp.ok c.id c.nome_convidado (some status) := by
  have hany : db.convidados.any (fun c => c.codigo_convite == codigo) = true := by
    rw [List.any_eq_true]
    exact ⟨c0, h0, by simp [hcod]⟩
  have hconf : rsvp_confirmar db (some codigo) (some status) qtd restr now =
      (ConfirmResp.ok,
        { db with convidados :=
            db.convidados.map (confirmRow (some status) (qtd.getD 0) (restr.getD ("")) now codigo) }) := by
    simp [rsvp_confirmar, hany]
  obtain ⟨c, hfind, hcceq, hst, _, _, _⟩ :=
    find_confirmRow (some status) (qtd.getD 0) (restr.getD ("")) now codigo
      db.convidados ⟨c0, h0, hcod⟩
  rw [hconf]
  refine ⟨rfl, c, hfind, hst, ?_⟩
  unfold rsvp_verificar findConvidado
  simp only [hfind, hst]

/-- Witness for C2 at a concrete database and a non-enumerated status. -/
theorem confirm_stores_any_status_verify_returns_it_witness :
    (convW ∈ dbW.convidados ∧ convW.codigo_convite = ("ABC123")) ∧
    (rsvp_confirmar dbW (some ("ABC123")) (some ("Talvez")) (some 2) (some ("veg")) 7).1
      = ConfirmResp.ok :=
  ⟨⟨by decide, by decide⟩,
   (confirm_stores_any_status_verify_returns_it dbW ("ABC123") ("Talvez") (some 2)
     (some ("veg")) 7 convW (by decide) (by decide)).1⟩

/-- Claim C3: for an invite code absent from the guest table, each of
verify, confirm and testimonial-submit answers 404, leaves the database
unchanged and raises no server error. -/
theorem unknown_code_not_found
    (db : Db) (codigo : String) (status msg : Option String) (qtd : Option Int)
    (restr : Option String) (now : Nat)
    (h : ∀ c, c ∈ db.convidados → c.codigo_convite ≠ codigo) :
    rsvp_verificar db (some codigo) = VerifyResp.notFound ∧
    VerifyResp.notFound.code = 404 ∧
    rsvp_confirmar db (some codigo) status qtd restr now = (ConfirmResp.notFound, db) ∧
    ConfirmResp.notFound.code = 404 ∧
    post_depoimento_publico db (some codigo) msg now = (DepPostResp.notFound, db) ∧
    DepPostResp.notFound.code = 404 := by
  have hfind : db.convidados.find? (fun r => r.codigo_convite == codigo) = none := by
    rw [List.find?_eq_none]
    intro x hx
    simp [h x hx]
  have hfc : findConvidado db (some codigo) = none := by
    unfold findConvidado
    exact hfind
  have hany : db.convidados.any (fun c => c.codigo_convite == codigo) = false := by
    rw [List.any_eq_false]
    intro x hx
    simp [h x hx]
  refine ⟨?_, rfl, ?_, rfl, ?_, rfl⟩
  · unfold rsvp_verificar
    rw [hfc]
  · simp [rsvp_confirmar, hany]
  · unfold post_depoimento_publico
    rw [hfc]

/-- Witness for C3 at a concrete database and an unknown code. -/
theorem unknown_code_not_found_witness :
    (∀ c, c ∈ dbW.convidados → c.codigo_convite ≠ ("ZZZ")) ∧
    rsvp_verificar dbW (some ("ZZZ")) = VerifyResp.notFound :=
  ⟨by decide,
   (unknown_code_not_found dbW ("ZZZ") (some ("Confirmado")) (some ("oi")) (some 1)
     (some ("")) 3 (by decide)).1⟩

/-- Claim C4: a successful login mints the given fresh token, records
token → admin id in the session map and returns it; check_auth then
resolves that token, with or without the Bearer prefix, to the same admin
id, while a missing header or a token whose stripped form is absent from
the session map is unauthorized, and every protected endpoint answers 403
for such a request. -/
theorem login_token_authorizes_and_garbage_rejected
    (db : Db) (sessions : Sessions) (u k tok : String) (a : AdminRow)
    (ha : db.admins.find? (fun r =>
        sqlEqS (some r.username) (some u) && sqlEqS (some r.chave_admin) (some k)) = some a)
    (hu : u ≠ "") (hk : k ≠ "") (htok : tok ≠ "")
    (hstrip : stripBearer tok = tok) :
    login_admin db sessions (some u) (some k) tok
      = (LoginResp.ok tok a.id, (tok, a.id) :: sessions) ∧
    check_auth ((tok, a.id) :: sessions) (some tok) = some a.id ∧
    check_auth ((tok, a.id) :: sessions) (some (("Bearer ") ++ tok)) = some a.id ∧
    check_auth ((tok, a.id) :: sessions) none = none ∧
    (∀ t : String, sessionsGet ((tok, a.id) :: sessions) (stripBearer t) = none →
      check_auth ((tok, a.id) :: sessions) (some t) = none) ∧
    (∀ h : Option String, check_auth ((tok, a.id) :: sessions) h = none →
      admin_stats db ((tok, a.id) :: sessions) h = StatsResp.forbidden ∧
      StatsResp.forbidden.code = 403 ∧
      (∀ i, get_presente_by_id db ((tok, a.id) :: sessions) h i = PresenteResp.forbidden) ∧
      (∀ i, get_convidado_by_id db ((tok, a.id) :: sessions) h i = ConvidadoResp.forbidden) ∧
      admin_list_presentes db ((tok, a.id) :: sessions) h = PresListResp.forbidden ∧
      (∀ nome rid, admin_create_convidado db ((tok, a.id) :: sessions) h nome rid
        = (ConvCreateResp.forbidden, db)) ∧
      (∀ i nome v url desc, admin_update_presente db ((tok, a.id) :: sessions) h i nome v url desc
        = (UpdResp.forbidden, db))) := by
  refine ⟨?_, ?_, ?_, rfl, ?_, ?_⟩
  · unfold login_admin
    rw [if_pos (by simp [truthyStr, hu, hk]), ha]
  · simp [check_auth, htok, hstrip, sessionsGet]
  · have hne := bearer_append_ne_empty tok
    have hsb := stripBearer_append tok hstrip
    simp [check_auth, hne, hsb, sessionsGet]
  · intro t ht
    by_cases htt : (t == "") = true
    · simp [check_auth, htt]
    · simp [check_auth, htt, ht]
  · intro h hna
    refine ⟨?_, rfl, ?_, ?_, ?_, ?_, ?_⟩
    · simp [admin_stats, hna]
    · intro i
      simp [get_presente_by_id, hna]
    · intro i
      simp [get_convidado_by_id, hna]
    · simp [admin_list_presentes, hna]
    · intro nome rid
      simp [admin_create_convidado, hna]
    · intro i nome v url desc
      simp [admin_update_presente, hna]

/-- Witness for C4 at a concrete database, credentials and token. -/
theorem login_token_authorizes_and_garbage_rejected_witness :
    stripBearer ("tok1") = ("tok1") ∧
    login_admin dbW [] (some ("admin")) (some ("segredo")) ("tok1")
      = (LoginResp.ok ("tok1") 1, [(("tok1"), 1)]) ∧
    check_auth [(("tok1"), 1)] (some (("Bearer ") ++ ("tok1"))) = some 1 := by
  have h := login_token_authorizes_and_garbage_rejected dbW [] ("admin") ("segredo") ("tok1")
    ⟨1, ("admin"), ("segredo")⟩ (by decide) (by decide) (by decide) (by decide) (by decide)
  exact ⟨by decide, h.1, h.2.2.1⟩

/-- An empty database, used by counterexamples. -/
def dbEmpty : Db := { admins := [], convidados := [], presentes := [], depoimentos := [] }

/-- Counterexample to claim C6 as stated: with the username field present
but equal to the empty string and the credential field present, login
answers 400 even though neither field is missing from the request body
(Python falsiness conflates empty with absent). -/
theorem login_400_on_present_empty_field_cex :
    (some ("") : Option String) ≠ none ∧ (some ("x") : Option String) ≠ none ∧
    (login_admin dbEmpty [] (some ("")) (some ("x")) ("t")).1 = LoginResp.badRequest := by
  decide

/-- Claim C6 amended: login answers 400 exactly when the username or the
credential is missing or empty, answers 401 exactly when both are present
and non-empty but no admin row matches the pair, and in the 401 case no
token is minted and the session map is unchanged. -/
theorem login_error_codes (db : Db) (sessions : Sessions) (u k : Option String) (tok : String) :
    ((login_admin db sessions u k tok).1 = LoginResp.badRequest ↔
      (truthyStr u = false ∨ truthyStr k = false)) ∧
    ((login_admin db sessions u k tok).1 = LoginResp.unauthorized ↔
      (truthyStr u = true ∧ truthyStr k = true ∧
        db.admins.find? (fun r =>
          sqlEqS (some r.username) u && sqlEqS (some r.chave_admin) k) = none)) ∧
    ((login_admin db sessions u k tok).1 = LoginResp.unauthorized →
      login_admin db sessions u k tok = (LoginResp.unauthorized, sessions)) := by
  by_cases hu : truthyStr u = true
  · by_cases hk : truthyStr k = true
    · cases hfind : db.admins.find? (fun r =>
          sqlEqS (some r.username) u && sqlEqS (some r.chave_admin) k) with
      | none => simp [login_admin, hu, hk, hfind]
      | some a => simp [login_admin, hu, hk, hfind]
    · rw [Bool.not_eq_true] at hk
      simp [login_admin, hu, hk]
  · rw [Bool.not_eq_true] at hu
    simp [login_admin, hu]

/-- An inactive gift owned by admin 1, used by C5 and other witnesses. -/
def giftInactive : Presente :=
  { id := 1, admin_id := some 1, nome_presente := "g", descricao := none,
    imagem_url := none, valor_cota := 10, esta_ativo := false }

/-- Database with two admins and one inactive gift owned by admin 1. -/
def dbC5 : Db :=
  { admins := [{ id := 1, username := "a", chave_admin := "pa" },
               { id := 2, username := "b", chave_admin := "pb" }],
    convidados := [], presentes := [giftInactive], depoimentos := [] }

/-- Session map with one valid token per admin. -/
def sessC5 : Sessions := [(("tB"), 2), (("tA"), 1)]

/-- Counterexample to claim C5 as stated: the admin gift list is scoped to
the session's admin id (WHERE admin_id = session admin), so under the
authenticated session of admin 2 the inactive gift of admin 1 is not
included in the admin gift list response. -/
theorem inactive_gift_absent_from_other_admins_list_cex :
    giftInactive ∈ dbC5.presentes ∧ giftInactive.esta_ativo = false ∧
    check_auth sessC5 (some ("tB")) = some 2 ∧
    admin_list_presentes dbC5 sessC5 (some ("tB")) = PresListResp.ok [] := by
  decide

/-- Claim C5 amended: a gift with esta_ativo = false never appears in the
public gift list, which returns exactly the active gifts; it does appear
in the admin gift list response of a session whose admin id equals the
gift's admin_id (the admin list being scoped to the session's admin id). -/
theorem inactive_gift_public_hidden_owner_admin_visible
    (db : Db) (sessions : Sessions) (auth : Option String) (aid : Nat)
    (hauth : check_auth sessions auth = some aid) :
    (∀ g : Presente, g ∈ get_presentes_publico db ↔ (g ∈ db.presentes ∧ g.esta_ativo = true)) ∧
    (∃ l, admin_list_presentes db sessions auth = PresListResp.ok l ∧
      (∀ g, g ∈ l ↔ (g ∈ db.presentes ∧ sqlEqN g.admin_id (some aid) = true)) ∧
      (∀ g, g ∈ db.presentes → g.esta_ativo = false →
        (g ∉ get_presentes_publico db ∧ (g.admin_id = some aid → g ∈ l)))) := by
  have hadm : adminIdFromHeader sessions auth = some aid :=
    adminIdFromHeader_of_check_auth _ _ _ hauth
  have hpub : ∀ g : Presente,
      g ∈ get_presentes_publico db ↔ (g ∈ db.presentes ∧ g.esta_ativo = true) := by
    intro g
    unfold get_presentes_publico
    rw [mem_sortBy]
    simp [List.mem_filter]
  have hlist : admin_list_presentes db sessions auth = PresListResp.ok
      (sortBy (fun a b => decide (a.id ≤ b.id))
        (db.presentes.filter (fun p => sqlEqN p.admin_id (some aid)))) := by
    simp [admin_list_presentes, hauth, hadm]
  refine ⟨hpub, _, hlist, ?_, ?_⟩
  · intro g
    rw [mem_sortBy]
    simp [List.mem_filter]
  · intro g hg hginact
    constructor
    · intro hmem
      exact absurd ((hpub g).mp hmem).2 (by simp [hginact])
    · intro hgadm
      rw [mem_sortBy, List.mem_filter]
      exact ⟨hg, by simp [hgadm, sqlEqN]⟩

/-- Witness for the amended C5 at a concrete database: admin 1's session
sees the inactive gift in the admin list, the public list omits it. -/
theorem inactive_gift_public_hidden_owner_admin_visible_witness :
    check_auth sessC5 (some ("tA")) = some 1 ∧
    (∀ g : Presente, g ∈ get_presentes_publico dbC5 ↔ (g ∈ dbC5.presentes ∧ g.esta_ativo = true)) :=
  ⟨by decide,
   (inactive_gift_public_hidden_owner_admin_visible dbC5 sessC5 (some ("tA")) 1 (by decide)).1⟩

/-- Claim C7: with a valid session, a non-empty name and a collision-free
random identifier of at least six characters, guest creation returns an
invite code equal to the first six characters of the identifier
uppercased — hence exactly 6 characters long — and inserts a row tied to
the session's admin id; with the name missing or empty it returns 400 and
inserts nothing. -/
theorem create_guest_code_and_admin_binding
    (db : Db) (sessions : Sessions) (auth : Option String) (aid : Nat)
    (nome : Option String) (randId : String)
    (hauth : check_auth sessions auth = some aid)
    (hlen : 6 ≤ randId.data.length)
    (hfresh : ∀ c, c ∈ db.convidados → c.codigo_convite ≠ pyTake6Upper randId) :
    (truthyStr nome = true →
      admin_create_convidado db sessions auth nome randId =
        (ConvCreateResp.created (nextId (db.convidados.map (fun c => c.id))) (pyTake6Upper randId),
         { db with convidados := db.convidados ++
            [{ id := nextId (db.convidados.map (fun c => c.id)), admin_id := some aid,
               codigo_convite := pyTake6Upper randId, nome_convidado := nome.getD (""),
               status_rsvp := some ("Pendente"), qtd_adultos := none,
               restricoes_alimentares := none, data_confirmacao := none }] }) ∧
      (pyTake6Upper randId).data = (randId.data.take 6).map Char.toUpper ∧
      (pyTake6Upper randId).length = 6) ∧
    (truthyStr nome = false →
      admin_create_convidado db sessions auth nome randId = (ConvCreateResp.badRequest, db)) := by
  have hadm : adminIdFromHeader sessions auth = some aid :=
    adminIdFromHeader_of_check_auth _ _ _ hauth
  have hany : db.convidados.any (fun c => c.codigo_convite == pyTake6Upper randId) = false := by
    rw [List.any_eq_false]
    intro x hx
    simp [hfresh x hx]
  constructor
  · intro hn
    refine ⟨?_, rfl, ?_⟩
    · simp [admin_create_convidado, hauth, hadm, hn, hany]
    · show ((randId.data.take 6).map Char.toUpper).length = 6
      rw [List.length_map, List.length_take]
      exact Nat.min_eq_left hlen
  · intro hn
    simp [admin_create_convidado, hauth, hn]

/-- Witness for C7 at a concrete session, name and random identifier. -/
theorem create_guest_code_and_admin_binding_witness :
    check_auth sessC5 (some ("tA")) = some 1 ∧
    truthyStr (some ("Bob")) = true ∧
    (pyTake6Upper ("9f8e7d6c-11")).length = 6 :=
  ⟨by decide, by decide,
   ((create_guest_code_and_admin_binding dbW sessC5 (some ("tA")) 1 (some ("Bob")) ("9f8e7d6c-11")
     (by decide) (by decide) (by decide)).1 (by decide)).2.2⟩

/-- Claim C8: the single-gift and single-guest lookups are by id only and
are not filtered by the session's admin id, so two authenticated sessions
of different admins receive identical responses for every id. -/
theorem admin_id_lookups_not_scoped
    (db : Db) (sessions : Sessions) (h1 h2 : Option String) (a1 a2 : Nat) (i : Nat)
    (hh1 : check_auth sessions h1 = some a1) (hh2 : check_auth sessions h2 = some a2) :
    get_presente_by_id db sessions h1 i = get_presente_by_id db sessions h2 i ∧
    get_convidado_by_id db sessions h1 i = get_convidado_by_id db sessions h2 i := by
  constructor
  · simp [get_presente_by_id, hh1, hh2]
  · simp [get_convidado_by_id, hh1, hh2]

/-- Witness for C8 with two sessions belonging to different admins. -/
theorem admin_id_lookups_not_scoped_witness :
    check_auth sessC5 (some ("tA")) = some 1 ∧
    check_auth sessC5 (some ("tB")) = some 2 ∧
    get_presente_by_id dbC5 sessC5 (some ("tA")) 1 = get_presente_by_id dbC5 sessC5 (some ("tB")) 1 :=
  ⟨by decide, by decide,
   (admin_id_lookups_not_scoped dbC5 sessC5 (some ("tA")) (some ("tB")) 1 2 1
     (by decide) (by decide)).1⟩

/-- Claim C9: an authenticated gift update with non-falsy name and value
overwrites exactly the four columns nome_presente, valor_cota, imagem_url
and descricao of every row with the given id, leaves esta_ativo, admin_id
and all other rows unchanged, and answers 200 even when no row has that
id; with a falsy name or value it answers 400 and changes nothing. -/
theorem gift_update_overwrites_four_fields_only
    (db : Db) (sessions : Sessions) (auth : Option String) (aid : Nat) (i : Nat)
    (nome : Option String) (valor : Option Rat) (url desc : Option String)
    (hauth : check_auth sessions auth = some aid) :
    (truthyStr nome = true → truthyRat valor = true →
      admin_update_presente db sessions auth i nome valor url desc =
        (UpdResp.ok,
          { db with presentes := db.presentes.map (updPresenteRow i nome valor url desc) }) ∧
      (∀ p : Presente, p.id ≠ i → updPresenteRow i nome valor url desc p = p) ∧
      (∀ p : Presente, (updPresenteRow i nome valor url desc p).esta_ativo = p.esta_ativo ∧
        (updPresenteRow i nome valor url desc p).admin_id = p.admin_id ∧
        (updPresenteRow i nome valor url desc p).id = p.id) ∧
      (∀ p : Presente, p.id = i →
        (updPresenteRow i nome valor url desc p).nome_presente = nome.getD ("") ∧
        (updPresenteRow i nome valor url desc p).valor_cota = valor.getD 0 ∧
        (updPresenteRow i nome valor url desc p).imagem_url = url ∧
        (updPresenteRow i nome valor url desc p).descricao = desc) ∧
      ((∀ p, p ∈ db.presentes → p.id ≠ i) →
        admin_update_presente db sessions auth i nome valor url desc = (UpdResp.ok, db))) ∧
    ((truthyStr nome = false ∨ truthyRat valor = false) →
      admin_update_presente db sessions auth i nome valor url desc
        = (UpdResp.badRequest, db)) := by
  constructor
  · intro hn hv
    refine ⟨?_, ?_, ?_, ?_, ?_⟩
    · simp [admin_update_presente, hauth, hn, hv]
    · intro p hpne
      unfold updPresenteRow
      rw [if_neg (by simp [hpne])]
    · intro p
      unfold updPresenteRow
      by_cases hp : (p.id == i) = true
      · rw [if_pos hp]
        exact ⟨rfl, rfl, rfl⟩
      · rw [if_neg hp]
        exact ⟨rfl, rfl, rfl⟩
    · intro p hp
      unfold updPresenteRow
      rw [if_pos (by simp [hp])]
      exact ⟨rfl, rfl, rfl, rfl⟩
    · intro hnone
      have hmap : db.presentes.map (updPresenteRow i nome valor url desc) = db.presentes := by
        apply map_id_of
        intro x hx
        unfold updPresenteRow
        rw [if_neg (by simp [hnone x hx])]
      simp [admin_update_presente, hauth, hn, hv, hmap]
  · intro hor
    cases hor with
    | inl h => simp [admin_update_presente, hauth, h]
    | inr h => simp [admin_update_presente, hauth, h]

/-- Witness for C9 at a concrete database, session and update payload. -/
theorem gift_update_overwrites_four_fields_only_witness :
    check_auth sessC5 (some ("tA")) = some 1 ∧
    (∀ p : Presente, p.id ≠ 1 → updPresenteRow 1 (some ("n")) (some 5) none (some ("d")) p = p) :=
  ⟨by decide,
   ((gift_update_overwrites_four_fields_only dbC5 sessC5 (some ("tA")) 1 1 (some ("n"))
     (some 5) none (some ("d")) (by decide)).1 (by decide) (by decide)).2.1⟩

/-- Claim C10: the dashboard counts are computed over all guests and all
testimonials, unfiltered by the session's admin id, so any two valid
sessions receive identical counts. -/
theorem dashboard_stats_unscoped
    (db : Db) (sessions : Sessions) (h1 h2 : Option String) (a1 a2 : Nat)
    (hh1 : check_auth sessions h1 = some a1) (hh2 : check_auth sessions h2 = some a2) :
    admin_stats db sessions h1 = admin_stats db sessions h2 ∧
    admin_stats db sessions h1 = StatsResp.ok
      (db.convidados.countP (fun c => c.status_rsvp == some ("Confirmado")))
      (db.convidados.countP (fun c => c.status_rsvp == some ("Pendente")))
      (db.depoimentos.countP (fun d => d.status_aprovacao == some ("Pendente"))) := by
  constructor
  · simp [admin_stats, hh1, hh2]
  · simp [admin_stats, hh1]

/-- Witness for C10 with two sessions belonging to different admins. -/
theorem dashboard_stats_unscoped_witness :
    check_auth sessC5 (some ("tA")) = some 1 ∧
    check_auth sessC5 (some ("tB")) = some 2 ∧
    admin_stats dbC5 sessC5 (some ("tA")) = admin_stats dbC5 sessC5 (some ("tB")) :=
  ⟨by decide, by decide,
   (dashboard_stats_unscoped dbC5 sessC5 (some ("tA")) (some ("tB")) 1 2
     (by decide) (by decide)).1⟩
